import Mathlib

/-!
Shallow embedding of `uvicorn/workers.py`: the worker-process lifecycle
machinery of the two gunicorn worker classes.

* `UvicornWorker` (asyncio/uvloop): signal handlers `handle_quit` /
  `handle_abort` mutate worker state; `tick` is a 1-second health loop
  (heartbeat every 10th cycle, max-requests recycling, parent-changed
  orphan detection) followed by a drain of all servers and `loop.stop()`;
  `run` finishes with `sys.exit(self.exit_code)`.
* `UvicornTrioWorker` (trio): `run` opens a nursery, starts the signal
  handler task and the servers, then blocks on `self.killed.wait()` and
  cancels the scope; its tick/health loop is commented out in the source,
  so no monitoring happens.  Its handlers additionally set the `killed`
  event.
* `create_servers` / `create_ssl_context`: listener startup over the
  pre-bound sockets and the TLS context construction.

External effects (loop scheduling, the OS, `loop.create_server`) are
modelled as explicit step functions and injected functions; machine state
is explicit records.
-/

namespace Uvicorn

/-- Supervisor notification hooks `cfg.worker_int` / `cfg.worker_abort`. -/
inductive Hook
  | workerInt
  | workerAbort
deriving DecidableEq

/-- The two informational log lines emitted by `UvicornWorker.tick`. -/
inductive LogMsg
  | maxRequestsExceeded
  | parentChanged
deriving DecidableEq

/-- Worker constants read by the tick loop: `self.max_requests` (0 means
disabled, Python truthiness) and `self.ppid`, the parent pid recorded at
startup by the gunicorn base `Worker`. -/
structure WorkerCfg where
  max_requests : Nat
  ppid : Nat
deriving DecidableEq

/-- Mutable worker state of `UvicornWorker`: `alive` and the hook calls
come from the gunicorn base worker protocol, `exit_code` is set in
`__init__` to 0, `cycle` is the tick loop counter, `protoTicks` counts the
`protocol_class.tick()` calls, `notifies` counts `self.notify()`
heartbeats, `logs` the informational shutdown log lines. -/
structure WState where
  alive : Bool
  exit_code : Nat
  cycle : Nat
  protoTicks : Nat
  notifies : Nat
  logs : List LogMsg
  hooks : List Hook
deriving DecidableEq

/-- State right after `UvicornWorker.__init__`: alive, exit code 0. -/
def initWState : WState :=
  { alive := true
    exit_code := 0
    cycle := 0
    protoTicks := 0
    notifies := 0
    logs := []
    hooks := [] }

/-- `UvicornWorker.handle_quit`: `self.alive = False; self.cfg.worker_int(self)`. -/
def handle_quit (s : WState) : WState :=
  { s with alive := false, hooks := s.hooks ++ [Hook.workerInt] }

/-- `UvicornWorker.handle_abort`: `self.alive = False; self.exit_code = 1;
self.cfg.worker_abort(self)`. -/
def handle_abort (s : WState) : WState :=
  { s with alive := false, exit_code := 1, hooks := s.hooks ++ [Hook.workerAbort] }

/-- One iteration of the `while self.alive` body of `UvicornWorker.tick`.
`reqCounts` are the current `total_requests` counters of `self.servers`
(written by the external protocol handlers) and `cur_ppid` is the value of
`os.getppid()` at this iteration.  Returns the new state and whether the
iteration reached the `else: await asyncio.sleep(1)` branch.

`tickBase` is the unconditional prefix of the loop body:
`self.protocol_class.tick()`, `cycle = (cycle + 1) % 10` and the
`if cycle == 0: self.notify()` heartbeat. -/
def tickBase (s : WState) : WState :=
  { s with
    protoTicks := s.protoTicks + 1
    cycle := (s.cycle + 1) % 10
    notifies := if (s.cycle + 1) % 10 = 0 then s.notifies + 1 else s.notifies }

def tickIter (w : WorkerCfg) (s : WState) (reqCounts : List Nat) (cur_ppid : Nat) :
    WState × Bool :=
  if w.max_requests ≠ 0 ∧ reqCounts.sum > w.max_requests then
    ({ tickBase s with
       alive := false
       logs := (tickBase s).logs ++ [LogMsg.maxRequestsExceeded] }, false)
  else if w.ppid ≠ cur_ppid then
    ({ tickBase s with
       alive := false
       logs := (tickBase s).logs ++ [LogMsg.parentChanged] }, false)
  else
    (tickBase s, true)

/-- Program counter of the `tick` coroutine: at the `while self.alive`
test, suspended in `asyncio.sleep(1)`, in the server drain loop after the
while loop, or stopped (`loop.stop()` reached, `run` is about to
`sys.exit`). -/
inductive APC
  | check
  | sleeping
  | draining
  | stopped
deriving DecidableEq

/-- The `UvicornWorker` machine: the tick coroutine's position plus the
worker state. -/
structure AsyncM where
  pc : APC
  st : WState
deriving DecidableEq

/-- Machine state at the start of `run`. -/
def initAsync : AsyncM := { pc := APC.check, st := initWState }

/-- One scheduler step of the `tick` coroutine of `UvicornWorker`, with
the environment (`reqCounts`, `cur_ppid`) observed at this step.  At
`check` the `while self.alive` test runs: if alive the loop body runs
(suspending into `sleeping` only via the `else` branch), otherwise the
drain loop is entered.  A `sleeping` step is `asyncio.sleep(1)` resolving
back to the loop test; a `draining` step closes and awaits every server
and reaches `loop.stop()`. -/
def stepA (w : WorkerCfg) (reqCounts : List Nat) (cur_ppid : Nat) (m : AsyncM) : AsyncM :=
  match m.pc with
  | APC.check =>
      if m.st.alive then
        let r := tickIter w m.st reqCounts cur_ppid
        { pc := if r.2 then APC.sleeping else APC.check, st := r.1 }
      else
        { m with pc := APC.draining }
  | APC.sleeping => { m with pc := APC.check }
  | APC.draining => { m with pc := APC.stopped }
  | APC.stopped => m

/-- Delivery of SIGQUIT/SIGINT to `UvicornWorker`: the loop-registered
handler runs `handle_quit` on the worker state; the coroutine's position
is untouched (no wake event exists in this worker). -/
def deliverQuitA (m : AsyncM) : AsyncM := { m with st := handle_quit m.st }

/-- Delivery of SIGABRT to `UvicornWorker`: runs `handle_abort`; the
coroutine's position is untouched. -/
def deliverAbortA (m : AsyncM) : AsyncM := { m with st := handle_abort m.st }

/-- Events of a worker run: a quit signal, an abort signal, or one
scheduler step with the environment observed at it. -/
inductive AEv
  | quit
  | abort
  | step (reqCounts : List Nat) (cur_ppid : Nat)
deriving DecidableEq

/-- Run the `UvicornWorker` machine over a sequence of events. -/
def runA (w : WorkerCfg) (m : AsyncM) : List AEv → AsyncM
  | [] => m
  | AEv.quit :: evs => runA w (deliverQuitA m) evs
  | AEv.abort :: evs => runA w (deliverAbortA m) evs
  | AEv.step rc pp :: evs => runA w (stepA w rc pp m) evs

/-- Mutable worker state of `UvicornTrioWorker`: as `WState` plus the
`killed` trio event created in `__init__`.  `cycle`/`protoTicks` are
absent: this worker has no tick loop (it is commented out in the source);
`notifies` and `logs` are kept to observe that no heartbeat or
informational shutdown line ever happens. -/
structure TState where
  alive : Bool
  exit_code : Nat
  killed : Bool
  notifies : Nat
  logs : List LogMsg
  hooks : List Hook
deriving DecidableEq

/-- State right after `UvicornTrioWorker.__init__`. -/
def initTState : TState :=
  { alive := true
    exit_code := 0
    killed := false
    notifies := 0
    logs := []
    hooks := [] }

/-- `UvicornTrioWorker.handle_quit`: `self.alive = False;
self.killed.set(); self.cfg.worker_int(self)`. -/
def trio_handle_quit (s : TState) : TState :=
  { s with alive := false, killed := true, hooks := s.hooks ++ [Hook.workerInt] }

/-- `UvicornTrioWorker.handle_abort`: `self.alive = False;
self.killed.set(); self.exit_code = 1; self.cfg.worker_abort(self)`. -/
def trio_handle_abort (s : TState) : TState :=
  { s with
    alive := false
    killed := true
    exit_code := 1
    hooks := s.hooks ++ [Hook.workerAbort] }

/-- Program counter of `UvicornTrioWorker.run`'s main task: blocked on
`await self.killed.wait()`, or stopped (`nursery.cancel_scope.cancel()`
ran, `trio.run` returned, `run` is about to `sys.exit`). -/
inductive TPC
  | waiting
  | stopped
deriving DecidableEq

/-- The `UvicornTrioWorker` machine. -/
structure TrioM where
  pc : TPC
  st : TState
deriving DecidableEq

/-- Machine state at the start of `UvicornTrioWorker.run`. -/
def initTrio : TrioM := { pc := TPC.waiting, st := initTState }

/-- One scheduler step of `UvicornTrioWorker.run`'s main task.  The
environment (request counters, current parent pid) is ignored: this
worker's health-tick loop is commented out in the source, so the main
task only resolves `self.killed.wait()` once the event is set and then
cancels the nursery scope. -/
def stepT (_reqCounts : List Nat) (_cur_ppid : Nat) (m : TrioM) : TrioM :=
  match m.pc with
  | TPC.waiting => if m.st.killed then { m with pc := TPC.stopped } else m
  | TPC.stopped => m

/-- Delivery of SIGQUIT/SIGINT to `UvicornTrioWorker` via its
`handle_signals` task. -/
def deliverQuitT (m : TrioM) : TrioM := { m with st := trio_handle_quit m.st }

/-- Delivery of SIGABRT to `UvicornTrioWorker`. -/
def deliverAbortT (m : TrioM) : TrioM := { m with st := trio_handle_abort m.st }

/-- Run the `UvicornTrioWorker` machine over the same event alphabet as
the asyncio worker. -/
def runT (m : TrioM) : List AEv → TrioM
  | [] => m
  | AEv.quit :: evs => runT (deliverQuitT m) evs
  | AEv.abort :: evs => runT (deliverAbortT m) evs
  | AEv.step rc pp :: evs => runT (stepT rc pp m) evs

/-! ### TLS context construction and listener startup -/

/-- The configuration fields of the gunicorn `cfg` object read by
`create_ssl_context` and `create_servers`.  A `none` or empty-string
`ca_certs`/`ciphers` is Python-falsy. -/
structure GunicornCfg where
  is_ssl : Bool
  ssl_version : Nat
  certfile : String
  keyfile : String
  cert_reqs : Nat
  ca_certs : Option String
  ciphers : Option String
deriving DecidableEq

/-- Python truthiness of an optional string setting (`None` and `""` are
falsy). -/
def truthyStr : Option String → Bool
  | none => false
  | some s => !s.isEmpty

/-- Observable result of `ssl.SSLContext` construction as performed by
`create_ssl_context`: protocol version, loaded cert chain, the verify
mode, the CA bundle passed to `load_verify_locations` (if any), and the
cipher list passed to `set_ciphers` (if any). -/
structure SSLContext where
  version : Nat
  certChain : String × String
  verify_mode : Nat
  caLoaded : Option String
  ciphersSet : Option String
deriving DecidableEq

/-- `UvicornWorker.create_ssl_context` (the trio worker's copy is
identical): build the context, load the cert chain, set
`ctx.verify_mode = cfg.cert_reqs`, then conditionally `if cfg.ca_certs:`
load trust anchors and `if cfg.ciphers:` restrict ciphers.  The three
definitions below are the context after each of those statements;
`create_ssl_context` is the returned context. -/
def ctxAfterVerify (cfg : GunicornCfg) : SSLContext :=
  { version := cfg.ssl_version
    certChain := (cfg.certfile, cfg.keyfile)
    verify_mode := cfg.cert_reqs
    caLoaded := none
    ciphersSet := none }

def ctxAfterCA (cfg : GunicornCfg) : SSLContext :=
  if truthyStr cfg.ca_certs then { ctxAfterVerify cfg with caLoaded := cfg.ca_certs }
  else ctxAfterVerify cfg

def create_ssl_context (cfg : GunicornCfg) : SSLContext :=
  if truthyStr cfg.ciphers then { ctxAfterCA cfg with ciphersSet := cfg.ciphers }
  else ctxAfterCA cfg

/-- One entry of `self.servers`: the server handle returned by
`loop.create_server`, the fresh stats block `{"total_requests": 0}`, and
the `ssl` argument the server was created with. -/
structure Listener where
  server : Nat
  total_requests : Nat
  sslUsed : Option SSLContext
deriving DecidableEq

instance {ε α : Type} [DecidableEq ε] [DecidableEq α] : DecidableEq (Except ε α)
  | Except.ok a, Except.ok b =>
      if h : a = b then isTrue (congrArg Except.ok h)
      else isFalse (fun hc => h (Except.ok.inj hc))
  | Except.ok _, Except.error _ => isFalse (fun hc => Except.noConfusion hc)
  | Except.error _, Except.ok _ => isFalse (fun hc => Except.noConfusion hc)
  | Except.error a, Except.error b =>
      if h : a = b then isTrue (congrArg Except.error h)
      else isFalse (fun hc => h (Except.error.inj hc))

/-- Result of `create_servers`: whether it returned or raised, the
`self.servers` list it left behind, and the server handles it closed
before letting an error propagate (the source performs no such close). -/
structure CreateResult where
  res : Except Unit Unit
  servers : List Listener
  closedBeforePropagate : List Nat
deriving DecidableEq

/-- The `for sock in self.sockets` loop of `create_servers`.  `start`
models `await loop.create_server(protocol, sock=sock, ssl=ssl_ctx)`,
which may raise.  On an exception the loop body re-raises immediately:
the accumulated `self.servers` are left as-is and nothing is closed. -/
def create_servers_loop (start : Nat → Option SSLContext → Except Unit Nat)
    (ssl_ctx : Option SSLContext) : List Nat → List Listener → CreateResult
  | [], acc => { res := Except.ok (), servers := acc, closedBeforePropagate := [] }
  | sock :: rest, acc =>
      match start sock ssl_ctx with
      | Except.ok srv =>
          create_servers_loop start ssl_ctx rest
            (acc ++ [{ server := srv, total_requests := 0, sslUsed := ssl_ctx }])
      | Except.error e =>
          { res := Except.error e, servers := acc, closedBeforePropagate := [] }

/-- `UvicornWorker.create_servers`: `ssl_ctx = self.create_ssl_context(self.cfg)
if self.cfg.is_ssl else None`, then start a server per socket. -/
def create_servers (cfg : GunicornCfg) (start : Nat → Option SSLContext → Except Unit Nat)
    (socks : List Nat) : CreateResult :=
  let ssl_ctx := if cfg.is_ssl then some (create_ssl_context cfg) else none
  create_servers_loop start ssl_ctx socks []

/-- The servers the loop of `create_servers` successfully starts before
the first failure (all of them when no start fails). -/
def startedServers (start : Nat → Option SSLContext → Except Unit Nat)
    (ssl_ctx : Option SSLContext) : List Nat → List Listener
  | [] => []
  | sock :: rest =>
      match start sock ssl_ctx with
      | Except.ok srv =>
          { server := srv, total_requests := 0, sslUsed := ssl_ctx }
            :: startedServers start ssl_ctx rest
      | Except.error _ => []

/-! ### Helper lemmas -/

theorem tickIter_exit_code (w : WorkerCfg) (s : WState) (rc : List Nat) (pp : Nat) :
    ((tickIter w s rc pp).1).exit_code = s.exit_code := by
  unfold tickIter
  split_ifs <;> rfl

theorem stepA_exit_code (w : WorkerCfg) (rc : List Nat) (pp : Nat) (m : AsyncM) :
    (stepA w rc pp m).st.exit_code = m.st.exit_code := by
  unfold stepA
  cases m with
  | mk pc st =>
    cases pc <;> simp only []
    split_ifs <;> simp [tickIter_exit_code]

theorem stepT_st (rc : List Nat) (pp : Nat) (m : TrioM) :
    (stepT rc pp m).st = m.st := by
  unfold stepT
  cases m with
  | mk pc st =>
    cases pc <;> simp only []
    split_ifs <;> rfl

theorem runA_exit_code (w : WorkerCfg) :
    ∀ (evs : List AEv) (m : AsyncM),
      (runA w m evs).st.exit_code = if AEv.abort ∈ evs then 1 else m.st.exit_code := by
  intro evs
  induction evs with
  | nil => intro m; simp [runA]
  | cons e rest ih =>
    intro m
    cases e with
    | quit =>
      simp only [runA, ih, deliverQuitA, handle_quit, List.mem_cons]
      simp
    | abort =>
      simp only [runA, ih, deliverAbortA, handle_abort, List.mem_cons]
      simp
    | step rc pp =>
      simp only [runA, ih, stepA_exit_code, List.mem_cons]
      simp

theorem runT_exit_code :
    ∀ (evs : List AEv) (m : TrioM),
      (runT m evs).st.exit_code = if AEv.abort ∈ evs then 1 else m.st.exit_code := by
  intro evs
  induction evs with
  | nil => intro m; simp [runT]
  | cons e rest ih =>
    intro m
    cases e with
    | quit =>
      simp only [runT, ih, deliverQuitT, trio_handle_quit, List.mem_cons]
      simp
    | abort =>
      simp only [runT, ih, deliverAbortT, trio_handle_abort, List.mem_cons]
      simp
    | step rc pp =>
      simp only [runT, ih, stepT_st, List.mem_cons]
      simp

/-! ### Claims -/

/-- C1: the claim says `UvicornWorker` and `UvicornTrioWorker` apply the
max-requests recycling, the parent-changed orphan detection and the
periodic heartbeat uniformly.  The code does not: the trio worker's tick
loop is commented out.  Concretely, with `max_requests = 1` and an
aggregate request count of 2 (and likewise with a changed parent pid, and
over ten quiet ticks for the heartbeat), the asyncio worker recycles /
detects / notifies while the trio worker's state is completely unchanged. -/
theorem c1_trio_worker_lacks_monitor :
    ((runA ⟨1, 10⟩ initAsync [AEv.step [2] 10]).st.alive = false
        ∧ LogMsg.maxRequestsExceeded ∈ (runA ⟨1, 10⟩ initAsync [AEv.step [2] 10]).st.logs)
      ∧ ((runA ⟨1, 10⟩ initAsync [AEv.step [0] 99]).st.alive = false
        ∧ LogMsg.parentChanged ∈ (runA ⟨1, 10⟩ initAsync [AEv.step [0] 99]).st.logs)
      ∧ (runA ⟨1, 10⟩ initAsync (List.replicate 20 (AEv.step [0] 10))).st.notifies = 1
      ∧ (runT initTrio [AEv.step [2] 10]).st = initTState
      ∧ (runT initTrio [AEv.step [0] 99]).st = initTState
      ∧ (runT initTrio (List.replicate 20 (AEv.step [0] 10))).st = initTState := by
  decide

/-- C2: in either concurrency model, delivering the abort signal runs the
`handle_abort` handler, which sets `alive` to `false`, sets the exit code
to 1 and calls the supervisor's `worker_abort` hook. -/
theorem c2_abort_handler (w : WorkerCfg) (s : WState) (t : TState)
    (m : AsyncM) (n : TrioM) (evs : List AEv) :
    (handle_abort s).alive = false
      ∧ (handle_abort s).exit_code = 1
      ∧ (handle_abort s).hooks = s.hooks ++ [Hook.workerAbort]
      ∧ (trio_handle_abort t).alive = false
      ∧ (trio_handle_abort t).exit_code = 1
      ∧ (trio_handle_abort t).hooks = t.hooks ++ [Hook.workerAbort]
      ∧ runA w m (AEv.abort :: evs) = runA w (deliverAbortA m) evs
      ∧ runT n (AEv.abort :: evs) = runT (deliverAbortT n) evs :=
  ⟨rfl, rfl, rfl, rfl, rfl, rfl, rfl, rfl⟩

/-- C3: for every run of either worker from its initial state, the
process exit (`sys.exit(self.exit_code)`) uses the recorded exit code,
which is 1 exactly when an abort signal was delivered during the run and
0 otherwise (recycling, orphan detection and quit signals leave it 0). -/
theorem c3_exit_code (w : WorkerCfg) (evs : List AEv) :
    (runA w initAsync evs).st.exit_code = (if AEv.abort ∈ evs then 1 else 0)
      ∧ (runT initTrio evs).st.exit_code = (if AEv.abort ∈ evs then 1 else 0) := by
  constructor
  · rw [runA_exit_code]; rfl
  · rw [runT_exit_code]; rfl

/-- C4 counterexample: in the asyncio worker, delivering a quit signal
while the tick loop sleeps sets `alive := false` but unblocks nothing:
the machine stays suspended in the sleep, and the next transition is the
sleep resolving back to the loop test, not the shutdown (drain) sequence.
So the claim that in both models the handler sets a wake event making
shutdown begin immediately is false. -/
theorem c4_counterexample :
    (deliverQuitA ⟨APC.sleeping, initWState⟩).st.alive = false
      ∧ (deliverQuitA ⟨APC.sleeping, initWState⟩).pc = APC.sleeping
      ∧ (stepA ⟨0, 10⟩ [] 10 (deliverQuitA ⟨APC.sleeping, initWState⟩)).pc = APC.check
      ∧ (stepA ⟨0, 10⟩ [] 10 (deliverQuitA ⟨APC.sleeping, initWState⟩)).pc ≠ APC.draining := by
  decide

/-- C4 amended: in the structured-concurrency model the quit/abort
handlers set the `killed` wake event and the blocked main wait unblocks
on the very next scheduler step (the scope is cancelled immediately); in
the callback model the handlers set no wake event, so a signal delivered
mid-sleep leaves the loop suspended, and the drain sequence begins only
after the in-progress sleep resolves and the loop re-checks `alive` —
i.e. two scheduler steps later, within one tick period. -/
theorem c4_amended (t : TState) (s : WState) (w : WorkerCfg)
    (rc rc' : List Nat) (pp pp' : Nat) :
    (trio_handle_quit t).killed = true
      ∧ (trio_handle_abort t).killed = true
      ∧ (stepT rc pp (deliverQuitT ⟨TPC.waiting, t⟩)).pc = TPC.stopped
      ∧ (stepT rc pp (deliverAbortT ⟨TPC.waiting, t⟩)).pc = TPC.stopped
      ∧ (deliverQuitA ⟨APC.sleeping, s⟩).pc = APC.sleeping
      ∧ (deliverAbortA ⟨APC.sleeping, s⟩).pc = APC.sleeping
      ∧ (stepA w rc' pp' (stepA w rc pp (deliverQuitA ⟨APC.sleeping, s⟩))).pc = APC.draining
      ∧ (stepA w rc' pp' (stepA w rc pp (deliverAbortA ⟨APC.sleeping, s⟩))).pc = APC.draining :=
  ⟨rfl, rfl, rfl, rfl, rfl, rfl, rfl, rfl⟩

theorem tickIter_max_requests (w : WorkerCfg) (s : WState) (rc : List Nat) (pp : Nat)
    (hc : w.max_requests ≠ 0 ∧ rc.sum > w.max_requests) :
    tickIter w s rc pp =
      ({ tickBase s with
         alive := false
         logs := (tickBase s).logs ++ [LogMsg.maxRequestsExceeded] }, false) := by
  unfold tickIter
  rw [if_pos hc]

theorem tickIter_parent_changed (w : WorkerCfg) (s : WState) (rc : List Nat) (pp : Nat)
    (hno : ¬(w.max_requests ≠ 0 ∧ rc.sum > w.max_requests)) (hpp : w.ppid ≠ pp) :
    tickIter w s rc pp =
      ({ tickBase s with
         alive := false
         logs := (tickBase s).logs ++ [LogMsg.parentChanged] }, false) := by
  unfold tickIter
  rw [if_neg hno, if_pos hpp]

theorem stepA_check_alive (w : WorkerCfg) (rc : List Nat) (pp : Nat) (s : WState)
    (halive : s.alive = true) :
    stepA w rc pp ⟨APC.check, s⟩ =
      ⟨if (tickIter w s rc pp).2 then APC.sleeping else APC.check, (tickIter w s rc pp).1⟩ := by
  unfold stepA
  simp [halive]

theorem stepA_check_dead (w : WorkerCfg) (rc : List Nat) (pp : Nat) (s : WState)
    (hdead : s.alive = false) :
    stepA w rc pp ⟨APC.check, s⟩ = ⟨APC.draining, s⟩ := by
  unfold stepA
  simp [hdead]

/-- C5: on a health tick with a positive `max_requests` and an aggregate
request count strictly above it, the tick sets `alive := false` and
appends the "Max requests exceeded" log line without touching the exit
code, and the machine then reaches `loop.stop()` (pc `stopped`) with exit
code 0: a clean planned recycling. -/
theorem c5_max_requests_recycling (w : WorkerCfg) (s : WState)
    (rc rc' rc'' : List Nat) (pp pp' pp'' : Nat)
    (hmax : 0 < w.max_requests) (hreq : w.max_requests < rc.sum)
    (halive : s.alive = true) (hexit : s.exit_code = 0) :
    ((tickIter w s rc pp).1).alive = false
      ∧ ((tickIter w s rc pp).1).logs = s.logs ++ [LogMsg.maxRequestsExceeded]
      ∧ (stepA w rc'' pp'' (stepA w rc' pp' (stepA w rc pp ⟨APC.check, s⟩))).pc = APC.stopped
      ∧ (stepA w rc'' pp'' (stepA w rc' pp' (stepA w rc pp ⟨APC.check, s⟩))).st.exit_code = 0 := by
  have hc : w.max_requests ≠ 0 ∧ rc.sum > w.max_requests :=
    ⟨Nat.pos_iff_ne_zero.mp hmax, hreq⟩
  have ht := tickIter_max_requests w s rc pp hc
  have h1 : stepA w rc pp ⟨APC.check, s⟩ = ⟨APC.check, (tickIter w s rc pp).1⟩ := by
    rw [stepA_check_alive w rc pp s halive, ht]
    simp
  have hdead : ((tickIter w s rc pp).1).alive = false := by rw [ht]
  have h2 : stepA w rc' pp' ⟨APC.check, (tickIter w s rc pp).1⟩ =
      ⟨APC.draining, (tickIter w s rc pp).1⟩ :=
    stepA_check_dead w rc' pp' _ hdead
  have hex : ((tickIter w s rc pp).1).exit_code = 0 := by
    rw [tickIter_exit_code, hexit]
  refine ⟨hdead, ?_, ?_, ?_⟩
  · rw [ht]; rfl
  · rw [h1, h2]; rfl
  · rw [h1, h2]
    simpa [stepA] using hex

/-- Closed witness for `c5_max_requests_recycling` at `max_requests = 1`,
one listener with 2 completed requests, unchanged parent pid. -/
theorem c5_witness :
    ((tickIter ⟨1, 10⟩ initWState [2] 10).1).alive = false
      ∧ ((tickIter ⟨1, 10⟩ initWState [2] 10).1).logs = [] ++ [LogMsg.maxRequestsExceeded]
      ∧ (stepA ⟨1, 10⟩ [2] 10 (stepA ⟨1, 10⟩ [2] 10
          (stepA ⟨1, 10⟩ [2] 10 ⟨APC.check, initWState⟩))).pc = APC.stopped
      ∧ (stepA ⟨1, 10⟩ [2] 10 (stepA ⟨1, 10⟩ [2] 10
          (stepA ⟨1, 10⟩ [2] 10 ⟨APC.check, initWState⟩))).st.exit_code = 0 :=
  c5_max_requests_recycling ⟨1, 10⟩ initWState [2] [2] [2] 10 10 10
    (by decide) (by decide) (by decide) (by decide)

/-- C6 counterexample: on a tick where the parent pid has changed (10
recorded vs 99 current) but the max-requests condition also holds, the
code's `elif` logs "Max requests exceeded" and never logs "Parent
changed", so the claim's unconditional "logs a parent changed event" is
false. -/
theorem c6_counterexample :
    (⟨1, 10⟩ : WorkerCfg).ppid ≠ 99
      ∧ ((tickIter ⟨1, 10⟩ initWState [5] 99).1).alive = false
      ∧ LogMsg.parentChanged ∉ ((tickIter ⟨1, 10⟩ initWState [5] 99).1).logs := by
  decide

/-- C6 amended: on a health tick where the current parent pid differs
from the one recorded at startup **and the max-requests condition does
not hold**, the tick sets `alive := false` and appends the "Parent
changed" log line, and the worker reaches `loop.stop()` with exit code 0
without any signal having been delivered (the trace consists of scheduler
steps only). -/
theorem c6_parent_changed (w : WorkerCfg) (s : WState)
    (rc rc' rc'' : List Nat) (pp pp' pp'' : Nat)
    (hno : ¬(w.max_requests ≠ 0 ∧ rc.sum > w.max_requests)) (hpp : w.ppid ≠ pp)
    (halive : s.alive = true) (hexit : s.exit_code = 0) :
    ((tickIter w s rc pp).1).alive = false
      ∧ ((tickIter w s rc pp).1).logs = s.logs ++ [LogMsg.parentChanged]
      ∧ (stepA w rc'' pp'' (stepA w rc' pp' (stepA w rc pp ⟨APC.check, s⟩))).pc = APC.stopped
      ∧ (stepA w rc'' pp'' (stepA w rc' pp' (stepA w rc pp ⟨APC.check, s⟩))).st.exit_code = 0 := by
  have ht := tickIter_parent_changed w s rc pp hno hpp
  have h1 : stepA w rc pp ⟨APC.check, s⟩ = ⟨APC.check, (tickIter w s rc pp).1⟩ := by
    rw [stepA_check_alive w rc pp s halive, ht]
    simp
  have hdead : ((tickIter w s rc pp).1).alive = false := by rw [ht]
  have h2 : stepA w rc' pp' ⟨APC.check, (tickIter w s rc pp).1⟩ =
      ⟨APC.draining, (tickIter w s rc pp).1⟩ :=
    stepA_check_dead w rc' pp' _ hdead
  have hex : ((tickIter w s rc pp).1).exit_code = 0 := by
    rw [tickIter_exit_code, hexit]
  refine ⟨hdead, ?_, ?_, ?_⟩
  · rw [ht]; rfl
  · rw [h1, h2]; rfl
  · rw [h1, h2]
    simpa [stepA] using hex

/-- Closed witness for `c6_parent_changed`: `max_requests` disabled (0),
recorded parent pid 10, current parent pid 99. -/
theorem c6_witness :
    ((tickIter ⟨0, 10⟩ initWState [] 99).1).alive = false
      ∧ ((tickIter ⟨0, 10⟩ initWState [] 99).1).logs = [] ++ [LogMsg.parentChanged]
      ∧ (stepA ⟨0, 10⟩ [] 99 (stepA ⟨0, 10⟩ [] 99
          (stepA ⟨0, 10⟩ [] 99 ⟨APC.check, initWState⟩))).pc = APC.stopped
      ∧ (stepA ⟨0, 10⟩ [] 99 (stepA ⟨0, 10⟩ [] 99
          (stepA ⟨0, 10⟩ [] 99 ⟨APC.check, initWState⟩))).st.exit_code = 0 :=
  c6_parent_changed ⟨0, 10⟩ initWState [] [] [] 99 99 99
    (by decide) (by decide) (by decide) (by decide)

/-- C9: on a tick where both the max-requests and the parent-changed
conditions hold, only the max-requests branch runs: exactly the one "Max
requests exceeded" log line is appended, and the result of the tick does
not depend on the current parent pid at all (the `elif` comparison is
not reached). -/
theorem c9_max_requests_precedence (w : WorkerCfg) (s : WState) (rc : List Nat)
    (pp pp' : Nat)
    (hc : w.max_requests ≠ 0 ∧ rc.sum > w.max_requests) (_hpp : w.ppid ≠ pp) :
    ((tickIter w s rc pp).1).logs = s.logs ++ [LogMsg.maxRequestsExceeded]
      ∧ tickIter w s rc pp = tickIter w s rc pp' := by
  have ht := tickIter_max_requests w s rc pp hc
  have ht' := tickIter_max_requests w s rc pp' hc
  constructor
  · rw [ht]; rfl
  · rw [ht, ht']

/-- Closed witness for `c9_max_requests_precedence`: both conditions
hold (`max_requests = 1`, 5 requests served, parent pid 10 vs 99), and
the tick result equals the one computed with a third parent pid 7. -/
theorem c9_witness :
    ((tickIter ⟨1, 10⟩ initWState [5] 99).1).logs = [] ++ [LogMsg.maxRequestsExceeded]
      ∧ tickIter ⟨1, 10⟩ initWState [5] 99 = tickIter ⟨1, 10⟩ initWState [5] 7 :=
  c9_max_requests_precedence ⟨1, 10⟩ initWState [5] 99 7 (by decide) (by decide)

/-- C10: if a tick itself turns `alive` off (max-requests or parent
changed), that iteration does not reach the `else: await asyncio.sleep(1)`
branch, the coroutine goes straight back to the loop test, and the very
next scheduler step enters the drain sequence — no sleeping state is
traversed between the triggering tick and the drain. -/
theorem c10_no_sleep_before_drain (w : WorkerCfg) (s : WState)
    (rc rc' : List Nat) (pp pp' : Nat)
    (halive : s.alive = true) (hkill : ((tickIter w s rc pp).1).alive = false) :
    (tickIter w s rc pp).2 = false
      ∧ stepA w rc pp ⟨APC.check, s⟩ = ⟨APC.check, (tickIter w s rc pp).1⟩
      ∧ (stepA w rc' pp' (stepA w rc pp ⟨APC.check, s⟩)).pc = APC.draining := by
  have hsl : (tickIter w s rc pp).2 = false := by
    unfold tickIter at hkill ⊢
    split_ifs at hkill ⊢ with h1 h2
    · rfl
    · rfl
    · simp [tickBase, halive] at hkill
  have h1 : stepA w rc pp ⟨APC.check, s⟩ = ⟨APC.check, (tickIter w s rc pp).1⟩ := by
    rw [stepA_check_alive w rc pp s halive, hsl]
    simp
  have h2 : stepA w rc' pp' ⟨APC.check, (tickIter w s rc pp).1⟩ =
      ⟨APC.draining, (tickIter w s rc pp).1⟩ :=
    stepA_check_dead w rc' pp' _ hkill
  refine ⟨hsl, h1, ?_⟩
  rw [h1, h2]

/-- Closed witness for `c10_no_sleep_before_drain` at a max-requests
triggered tick. -/
theorem c10_witness :
    (tickIter ⟨1, 10⟩ initWState [2] 10).2 = false
      ∧ stepA ⟨1, 10⟩ [2] 10 ⟨APC.check, initWState⟩ =
          ⟨APC.check, (tickIter ⟨1, 10⟩ initWState [2] 10).1⟩
      ∧ (stepA ⟨1, 10⟩ [2] 10 (stepA ⟨1, 10⟩ [2] 10 ⟨APC.check, initWState⟩)).pc
          = APC.draining :=
  c10_no_sleep_before_drain ⟨1, 10⟩ initWState [2] [2] 10 10 (by decide) (by decide)

theorem create_servers_loop_spec (start : Nat → Option SSLContext → Except Unit Nat)
    (ctx : Option SSLContext) :
    ∀ (socks : List Nat) (acc : List Listener),
      (create_servers_loop start ctx socks acc).closedBeforePropagate = []
        ∧ (create_servers_loop start ctx socks acc).servers
            = acc ++ startedServers start ctx socks := by
  intro socks
  induction socks with
  | nil => intro acc; simp [create_servers_loop, startedServers]
  | cons sock rest ih =>
    intro acc
    unfold create_servers_loop startedServers
    cases hs : start sock ctx with
    | ok srv => simp [ih]
    | error e => simp

/-- C7 counterexample: with two sockets where the second
`loop.create_server` raises, `create_servers` propagates the error while
the first listener is still in `self.servers` and nothing was closed —
refuting the claim that every already-started listener is closed before
the error propagates. -/
theorem c7_counterexample :
    (create_servers ⟨false, 2, "", "", 0, none, none⟩
        (fun sock _ => if sock = 0 then Except.ok 100 else Except.error ()) [0, 1]).res
      = Except.error ()
      ∧ (create_servers ⟨false, 2, "", "", 0, none, none⟩
          (fun sock _ => if sock = 0 then Except.ok 100 else Except.error ()) [0, 1]).servers
        = [⟨100, 0, none⟩]
      ∧ ¬ (∀ l ∈ (create_servers ⟨false, 2, "", "", 0, none, none⟩
            (fun sock _ => if sock = 0 then Except.ok 100 else Except.error ()) [0, 1]).servers,
          l.server ∈ (create_servers ⟨false, 2, "", "", 0, none, none⟩
            (fun sock _ => if sock = 0 then Except.ok 100 else Except.error ())
            [0, 1]).closedBeforePropagate) := by
  decide

/-- C7 amended: when starting a server fails, the error propagates with
**no** cleanup: `create_servers` performs no close at all, and the
listeners started before the failure (the well-defined prefix
`startedServers`) simply remain in the worker's `self.servers` list. -/
theorem c7_no_prefix_cleanup (cfg : GunicornCfg)
    (start : Nat → Option SSLContext → Except Unit Nat) (socks : List Nat) :
    (create_servers cfg start socks).closedBeforePropagate = []
      ∧ (create_servers cfg start socks).servers
          = startedServers start
              (if cfg.is_ssl then some (create_ssl_context cfg) else none) socks := by
  have h := create_servers_loop_spec start
    (if cfg.is_ssl then some (create_ssl_context cfg) else none) socks []
  simpa [create_servers] using h

theorem startedServers_ssl (start : Nat → Option SSLContext → Except Unit Nat)
    (ctx : Option SSLContext) :
    ∀ socks : List Nat,
      (startedServers start ctx socks).map Listener.sslUsed
        = List.replicate (startedServers start ctx socks).length ctx := by
  intro socks
  induction socks with
  | nil => simp [startedServers]
  | cons sock rest ih =>
    unfold startedServers
    cases hs : start sock ctx with
    | ok srv => simp [ih, List.replicate_succ]
    | error e => simp

/-- C8: `create_ssl_context` sets `verify_mode` verbatim from
`cfg.cert_reqs`, passes `cfg.ca_certs` to `load_verify_locations` exactly
when it is set (truthy) and `cfg.ciphers` to `set_ciphers` exactly when
it is set; and every listener `create_servers` starts is created with
`ssl = create_ssl_context(cfg)` when `cfg.is_ssl` and with `ssl = None`
(plaintext, builder skipped) otherwise. -/
theorem c8_tls_context (cfg : GunicornCfg)
    (start : Nat → Option SSLContext → Except Unit Nat) (socks : List Nat) :
    (create_ssl_context cfg).verify_mode = cfg.cert_reqs
      ∧ (create_ssl_context cfg).caLoaded
          = (if truthyStr cfg.ca_certs then cfg.ca_certs else none)
      ∧ (create_ssl_context cfg).ciphersSet
          = (if truthyStr cfg.ciphers then cfg.ciphers else none)
      ∧ ((create_ssl_context cfg).caLoaded ≠ none ↔ truthyStr cfg.ca_certs = true)
      ∧ ((create_ssl_context cfg).ciphersSet ≠ none ↔ truthyStr cfg.ciphers = true)
      ∧ (create_servers cfg start socks).servers.map Listener.sslUsed
          = List.replicate (create_servers cfg start socks).servers.length
              (if cfg.is_ssl then some (create_ssl_context cfg) else none) := by
  have hca : (create_ssl_context cfg).caLoaded
      = (if truthyStr cfg.ca_certs then cfg.ca_certs else none) := by
    unfold create_ssl_context ctxAfterCA ctxAfterVerify
    split_ifs <;> rfl
  have hci : (create_ssl_context cfg).ciphersSet
      = (if truthyStr cfg.ciphers then cfg.ciphers else none) := by
    unfold create_ssl_context ctxAfterCA ctxAfterVerify
    split_ifs <;> rfl
  refine ⟨?_, hca, hci, ?_, ?_, ?_⟩
  · unfold create_ssl_context ctxAfterCA ctxAfterVerify
    split_ifs <;> rfl
  · rw [hca]
    cases h : cfg.ca_certs with
    | none => simp [truthyStr]
    | some s => cases hs : s.isEmpty <;> simp [truthyStr, hs]
  · rw [hci]
    cases h : cfg.ciphers with
    | none => simp [truthyStr]
    | some s => cases hs : s.isEmpty <;> simp [truthyStr, hs]
  · have h := create_servers_loop_spec start
      (if cfg.is_ssl then some (create_ssl_context cfg) else none) socks []
    have h2 : (create_servers cfg start socks).servers
        = startedServers start
            (if cfg.is_ssl then some (create_ssl_context cfg) else none) socks := by
      simpa [create_servers] using h.2
    rw [h2, startedServers_ssl]

end Uvicorn
